import Mathlib

/-!
# Verification of the RAO CRAC builder and orchestrator

Shallow embedding of the CRAC-building pipeline of the Baltic-RCC RAO
repository (`src/rao/crac/models.py`, `src/rao/crac/builder.py`,
`src/rao/handlers.py`).  Python floats are embedded as exact rationals,
pandas cells that may be missing as `Option`, and code that can raise a
Python exception as `Except String`.  Pandas/dataframe plumbing (joins,
groupby aggregation) is abstracted into the row/map inputs of the
embedded functions; the per-row decision logic is translated literally.
-/

attribute [local semireducible] Rat.mul Rat.add Rat.sub Rat.inv Rat.ofScientific

namespace RAO

/-- `round` on integers used by Python's `round(x)`: round half to even
(banker's rounding), as documented for Python's built-in `round`. -/
def pyRound (q : ℚ) : ℤ :=
  let f : ℤ := ⌊q⌋
  let r : ℚ := q - f
  if r < 1/2 then f
  else if 1/2 < r then f + 1
  else if f % 2 = 0 then f else f + 1

/-- Python's `round(x, 1)`: one decimal digit, half to even. -/
def pyRound1 (q : ℚ) : ℚ := (pyRound (q * 10) : ℚ) / 10

/-- The exact value of the Python float `3 ** 0.5` (the IEEE-754 double
closest to the square root of three), used by `CracBuilder.get_limits`. -/
def sqrt3Float : ℚ := 3900231685776981 / 2251799813685248

/-! ## Data model (`src/rao/crac/models.py`) -/

/-- `models.Contingency`. -/
structure Contingency where
  id : String
  name : String
  networkElementsIds : List String
  deriving Repr, DecidableEq

/-- `models.Threshold`; field defaults as in the pydantic model. -/
structure Threshold where
  unit : String := "ampere"
  min : ℚ := 0
  max : ℚ := 0
  side : ℤ := 1
  deriving Repr, DecidableEq

/-- `models.FlowCnec` (= `models.Cnec`); `nominalV` entries are optional
because the builder can assign a missing (`None`) max voltage. -/
structure FlowCnec where
  id : String
  name : String
  description : String
  networkElementId : String
  operator : String
  thresholds : List Threshold
  instant : String := "preventive"
  optimized : Bool := true
  monitored : Bool := false
  nominalV : List (Option ℚ) := [some 330]
  contingencyId : Option String := none
  deriving Repr, DecidableEq

/-- `models.TerminalsAction` after validation: `actionType` is the string
`"open"` or `"close"` (a numeric `normalValue` of 0 maps to `"close"`,
any other number to `"open"`). -/
structure TerminalsAction where
  networkElementId : String
  actionType : String := "open"
  deriving Repr, DecidableEq

/-- The `map_to_string_open_close` validator of `models.TerminalsAction`
applied to a numeric `normalValue`. -/
def mapToStringOpenClose (v : ℤ) : String :=
  if v = 0 then "close" else "open"

/-- `models.ShuntCompensatorPositionAction`. -/
structure ShuntCompensatorPositionAction where
  networkElementId : String
  sectionCount : ℤ := 0
  deriving Repr, DecidableEq

/-- `models.NetworkAction`.  NOTE: the pydantic model declares no
`activationCost` field, even though the builder passes one (see
`mkNetworkAction`).  `onInstantUsageRules` entries are
(usageMethod, instant) pairs. -/
structure NetworkAction where
  id : String
  name : String
  operator : String
  onInstantUsageRules : List (String × String)
  terminalsConnectionActions : Option (List TerminalsAction) := none
  shuntCompensatorPositionActions : Option (List ShuntCompensatorPositionAction) := none
  deriving Repr, DecidableEq

/-- Constructing a `models.NetworkAction` the way
`CracBuilder.process_remedial_actions` does.  The builder passes an
`activationCost=` keyword; the pydantic model declares no such field and
its default configuration silently ignores unknown keywords, so the
argument is dropped.  The `empty_list_to_none` validator turns empty
action lists into `none`. -/
def mkNetworkAction (id name operator : String) (activationCost : ℤ)
    (onInstantUsageRules : List (String × String))
    (terminals : List TerminalsAction)
    (shunts : List ShuntCompensatorPositionAction) : NetworkAction :=
  { id := id
    name := name
    operator := operator
    onInstantUsageRules := onInstantUsageRules
    terminalsConnectionActions := if terminals = [] then none else some terminals
    shuntCompensatorPositionActions := if shunts = [] then none else some shunts }

/-- The in-memory CRAC document (`models.Crac`), restricted to the three
collections the builder populates. -/
structure Crac where
  contingencies : List Contingency := []
  flowCnecs : List FlowCnec := []
  networkActions : List NetworkAction := []
  deriving Repr, DecidableEq

/-! ## CNEC processing (`CracBuilder.process_cnecs`) -/

/-- One record of `data.type_tableview("AssessedElement")`, restricted to
the keys the builder reads.  A pandas cell that is missing is `none`. -/
structure AssessedElementRow where
  mRID : String
  name : String
  description : String
  conductingEquipment : String
  systemOperator : String
  normalEnabled : Option String := none
  inBaseCase : Option String := none
  securedForRegion : Option String := none
  scannedForRegion : Option String := none
  deriving Repr, DecidableEq

/-- Python truthiness of an optional string
(`bool(ae.get(key, False))`): missing and the empty string are falsy. -/
def truthyStr (s : Option String) : Bool :=
  match s with
  | none => false
  | some v => v ≠ ""

/-- The `models.FlowCnec(...)` object `process_cnecs` builds for an
assessed element before the `model_copy` updates. -/
def baseCnec (ae : AssessedElementRow) : FlowCnec :=
  { id := ae.mRID
    name := ae.name
    description := ae.description
    networkElementId := ae.conductingEquipment
    operator := ae.systemOperator
    thresholds := [{}]
    optimized := truthyStr ae.securedForRegion
    monitored := truthyStr ae.scannedForRegion }

/-- The preventive `model_copy` of the base CNEC. -/
def preventiveCnec (ae : AssessedElementRow) : FlowCnec :=
  { baseCnec ae with instant := "preventive", id := ae.mRID ++ "-preventive" }

/-- The curative `model_copy` of the base CNEC for one contingency. -/
def curativeCnec (ae : AssessedElementRow) (ct : Contingency) : FlowCnec :=
  { baseCnec ae with contingencyId := some ct.id, instant := "curative",
                     id := ae.mRID ++ "-curative" }

/-- Python's `str.lower()` (character-wise, as the profile values are
ASCII). -/
def lowerString (s : String) : String :=
  ⟨s.data.map Char.toLower⟩

/-- The test `ae.get("AssessedElement.inBaseCase", "false").lower() == 'true'`. -/
def inBaseCase (ae : AssessedElementRow) : Bool :=
  lowerString (ae.inBaseCase.getD "false") = "true"

/-- The CNECs `process_cnecs` appends for one assessed element that
passed the skip checks: a preventive copy if `inBaseCase`, then one
curative copy per already-processed contingency. -/
def cnecsForAssessedElement (contingencies : List Contingency)
    (ae : AssessedElementRow) : List FlowCnec :=
  (if inBaseCase ae then [preventiveCnec ae] else []) ++
    contingencies.map (curativeCnec ae)

/-- The skip test of `process_cnecs`:
`ae.get('AssessedElement.normalEnabled', 'false') == 'false'`. -/
def normalEnabledSkip (ae : AssessedElementRow) : Bool :=
  (ae.normalEnabled.getD "false") = "false"

/-- `CracBuilder.process_cnecs`: drop assessed elements whose conducting
equipment is missing from the network, skip those whose `normalEnabled`
resolves to the string `"false"`, and emit CNECs for the rest. -/
def process_cnecs (networkIds : List String) (contingencies : List Contingency)
    (assessedElements : List AssessedElementRow) : List FlowCnec :=
  ((assessedElements.filter
      (fun ae => networkIds.contains ae.conductingEquipment)).filter
      (fun ae => ¬ normalEnabledSkip ae)).flatMap
    (cnecsForAssessedElement contingencies)

/-! ## Consistency check (`CracBuilder.perform_cnec_consistency_check`) -/

/-- The removal flag: the source removes a CNEC when **any** of its
thresholds has `min == 0 and max == 0`. -/
def cnecRemoved (c : FlowCnec) : Bool :=
  c.thresholds.any fun t => t.min = 0 ∧ t.max = 0

/-- `CracBuilder.perform_cnec_consistency_check`: keep only the CNECs
not flagged by `cnecRemoved`. -/
def perform_cnec_consistency_check (cnecs : List FlowCnec) : List FlowCnec :=
  cnecs.filter fun c => ¬ cnecRemoved c

/-! ## Limits table (`CracBuilder.get_limits`)

Only the MW-synthesis step operates per row; the joins that produce the
rows are dataframe plumbing and are abstracted into `LimitRow`. -/

/-- One row of the joined limit table, restricted to the three columns
the synthesis step reads. -/
structure LimitRow where
  activePowerValue : Option ℚ := none
  currentValue : Option ℚ := none
  svVoltage : Option ℚ := none
  deriving Repr, DecidableEq

/-- The MW value synthesized from a current and a voltage:
`round(((3 ** 0.5) * I * V) / 1000, 1)`. -/
def syntheticMW (i v : ℚ) : ℚ := pyRound1 (sqrt3Float * i * v / 1000)

/-- The row update of `get_limits`: where `ActivePowerLimit.value` is
missing and both `CurrentLimit.value` and `SvVoltage.v` are present,
assign the synthesized MW value; all other rows are unchanged. -/
def synthesize_active_power (r : LimitRow) : LimitRow :=
  match r.activePowerValue, r.currentValue, r.svVoltage with
  | none, some i, some v => { r with activePowerValue := some (syntheticMW i v) }
  | _, _, _ => r

/-- The synthesis pass over the whole limits table. -/
def get_limits_mw_synthesis (rows : List LimitRow) : List LimitRow :=
  rows.map synthesize_active_power

/-! ## Limit update pass (`CracBuilder.update_limits_from_network`)

The groupby/min aggregation that produces the per-equipment dictionaries
is dataframe plumbing; the dictionaries themselves are the input. -/

/-- The per-equipment limit and voltage dictionaries computed at the top
of `update_limits_from_network` (`.to_dict()` of the groupby
aggregates), as association lists. -/
structure LimitMaps where
  patlCurrent : List (String × ℚ) := []
  tatlCurrent : List (String × ℚ) := []
  patlActivePower : List (String × ℚ) := []
  tatlActivePower : List (String × ℚ) := []
  patlApparentPower : List (String × ℚ) := []
  tatlApparentPower : List (String × ℚ) := []
  voltages : List (String × ℚ) := []
  maxVoltage : List (String × ℚ) := []
  deriving Repr, DecidableEq

/-- `_get_limit_fallback_to_patl`: take the primary (instant-selected)
dictionary's value; when it is `None`, fall back to the PATL dictionary
of the same kind. -/
def get_limit_fallback_to_patl (elementId : String)
    (primary fallback : List (String × ℚ)) : Option ℚ :=
  match primary.lookup elementId with
  | some v => some v
  | none => fallback.lookup elementId

/-- Python truthiness of an optional number, as tested by the walrus
assignments `if limit := ...` / `if operational_voltage := ...`:
`None` and `0` are falsy. -/
def truthyRat (o : Option ℚ) : Option ℚ :=
  match o with
  | some v => if v = 0 then none else some v
  | none => none

/-- Whether `p` occurs as a contiguous run inside the second list. -/
def hasInfixList (p : List Char) : List Char → Bool
  | [] => p.isEmpty
  | c :: rest => p.isPrefixOf (c :: rest) || hasInfixList p rest

/-- The Python substring test `pat in s` on strings. -/
def containsSub (pat s : String) : Bool :=
  hasInfixList pat.data s.data

/-- The substring test `"_AT" in monitored_element.name`. -/
def containsAT (name : String) : Bool :=
  containsSub "_AT" name

/-- The nominal-voltage update at the top of the per-CNEC loop of
`update_limits_from_network`. -/
def updateNominalVoltage (m : LimitMaps) (c : FlowCnec) : FlowCnec :=
  match m.voltages.lookup c.networkElementId with
  | none => c
  | some v =>
    if v = 0 then c
    else if containsAT c.name then
      { c with nominalV := [m.maxVoltage.lookup c.networkElementId] }
    else
      { c with nominalV := [some v] }

/-- The current-limit probe of the walrus-`if` chain: the dictionaries
are selected by instant (`preventive → PATL`, otherwise `TATL`), the
TATL side falls back to PATL, and a value of `0` is falsy. -/
def currentProbe (m : LimitMaps) (c : FlowCnec) : Option ℚ :=
  truthyRat (get_limit_fallback_to_patl c.networkElementId
    (if c.instant = "preventive" then m.patlCurrent else m.tatlCurrent)
    m.patlCurrent)

/-- The active-power probe of the walrus-`if` chain. -/
def activePowerProbe (m : LimitMaps) (c : FlowCnec) : Option ℚ :=
  truthyRat (get_limit_fallback_to_patl c.networkElementId
    (if c.instant = "preventive" then m.patlActivePower else m.tatlActivePower)
    m.patlActivePower)

/-- The apparent-power probe of the walrus-`if` chain. -/
def apparentPowerProbe (m : LimitMaps) (c : FlowCnec) : Option ℚ :=
  truthyRat (get_limit_fallback_to_patl c.networkElementId
    (if c.instant = "preventive" then m.patlApparentPower else m.tatlApparentPower)
    m.patlApparentPower)

/-- The limit-selection chain of `update_limits_from_network`: probe
current, active power and apparent power in that order; an
apparent-power winner is scaled by the assumed 0.9 power factor and
rounded to one decimal.  The Python float literal `0.9` is idealized to
the rational 9/10. -/
def selectLimit (m : LimitMaps) (c : FlowCnec) : Option (ℚ × String) :=
  match currentProbe m c with
  | some l => some (l, "ampere")
  | none =>
    match activePowerProbe m c with
    | some l => some (l, "megawatt")
    | none =>
      match apparentPowerProbe m c with
      | some l => some (pyRound1 (l * (9/10)), "megawatt")
      | none => none

/-- All values of the per-equipment limit dictionaries are nonnegative,
as physical limits are. -/
@[reducible]
def nonnegLimitMaps (m : LimitMaps) : Prop :=
  (∀ p ∈ m.patlCurrent, 0 ≤ p.2) ∧ (∀ p ∈ m.tatlCurrent, 0 ≤ p.2) ∧
  (∀ p ∈ m.patlActivePower, 0 ≤ p.2) ∧ (∀ p ∈ m.tatlActivePower, 0 ≤ p.2) ∧
  (∀ p ∈ m.patlApparentPower, 0 ≤ p.2) ∧ (∀ p ∈ m.tatlApparentPower, 0 ≤ p.2)

/-- The per-CNEC body of the `update_limits_from_network` loop: update
the nominal voltage, then either overwrite `thresholds` with the single
selected threshold or leave the CNEC unchanged (`continue`). -/
def update_limits_cnec (m : LimitMaps) (c : FlowCnec) : FlowCnec :=
  let c1 := updateNominalVoltage m c
  match selectLimit m c1 with
  | none => c1
  | some (l, u) =>
    { c1 with thresholds := [{ unit := u, min := l * (-1), max := l, side := 1 }] }

/-- `CracBuilder.update_limits_from_network` over the CNEC list. -/
def update_limits_from_network (m : LimitMaps) (cnecs : List FlowCnec) :
    List FlowCnec :=
  cnecs.map (update_limits_cnec m)

/-! ## Contingency processing (`CracBuilder.process_contingencies`) -/

/-- One contingency group (after the merge and the groupby on the
contingency mRID): name, and the equipment ids of its
`ContingencyEquipment` rows. -/
structure ContingencyRow where
  mRID : String
  name : String
  equipmentIds : List String
  deriving Repr, DecidableEq

/-- `CracBuilder.process_contingencies`: optionally restrict to the
requested contingency ids (a `None` or empty filter list is falsy and
disables filtering; an empty filtered result yields zero
contingencies), then emit one `Contingency` per group. -/
def process_contingencies (specific : Option (List String))
    (rows : List ContingencyRow) : List Contingency :=
  let rows := match specific with
    | some ids => if ids.isEmpty then rows else rows.filter fun r => ids.contains r.mRID
    | none => rows
  rows.map fun r => { id := r.mRID, name := r.name, networkElementsIds := r.equipmentIds }

/-! ## Remedial actions (`CracBuilder.process_remedial_actions`) -/

/-- One `GridStateAlteration` row of a remedial-action group. -/
structure AlterationRow where
  mRID : String
  gridStateAlterationType : Option String := none
  topologyEquipment : Option String := none
  shuntCompensator : Option String := none
  deriving Repr, DecidableEq

/-- One `StaticPropertyRange` row.  `RangeConstraint.normalValue` is a
numeric string in the profile; it is embedded as the integer pydantic
coerces it to. -/
structure PropertyRangeRow where
  gridStateAlteration : String
  direction : String
  normalValue : ℤ := 0
  deriving Repr, DecidableEq

/-- `x.split(".")[-1]`: the characters after the last dot (the whole
string when no dot occurs). -/
def suffixAfterDot (s : String) : String :=
  ⟨s.data.foldl (fun acc c => if c = '.' then [] else acc ++ [c]) []⟩

/-- One remedial-action group (after the merge and the groupby on the
remedial-action mRID). -/
structure RemedialActionGroup where
  mRID : String
  name : String
  operator : String
  kind : String
  alterations : List AlterationRow
  deriving Repr, DecidableEq

/-- `_get_opposite_terminal_connection_value`. -/
def getOppositeTerminalConnectionValue (value : String) : String :=
  if value = "close" then "open" else "close"

/-- An element of the builder's untyped `actions` list. -/
inductive RAAction where
  | terminals (a : TerminalsAction)
  | shunt (a : ShuntCompensatorPositionAction)
  deriving Repr, DecidableEq

/-- The loop state of the per-alteration loop: the accumulated `actions`
list and the group's `virtual_cost` column. -/
structure RAState where
  actions : List RAAction := []
  virtualCost : ℤ := 0
  deriving Repr, DecidableEq

/-- One iteration of the per-alteration loop of
`process_remedial_actions`.  Python exceptions surface as `.error`. -/
def process_alteration (networkIds : List String)
    (propertyRanges : List PropertyRangeRow) (directions : List String)
    (st : RAState) (a : AlterationRow) : Except String RAState :=
  match a.gridStateAlterationType with
  | none => .ok st
  | some t =>
    let altRanges := propertyRanges.filter fun r => r.gridStateAlteration = a.mRID
    let normalValue : ℤ := match altRanges with
      | [] => 0
      | r :: _ => r.normalValue
    if t = "TopologyAction" then
      -- the `directions.iloc[0]` read raises IndexError when the RA has
      -- no property range at all
      match directions.head? with
      | none => .error "IndexError"
      | some d =>
        let cost := if d = "none" ∨ d = "up" then 50 else st.virtualCost
        match a.topologyEquipment with
        | none => .ok { st with virtualCost := cost }
        | some eid =>
          if networkIds.contains eid then
            .ok { virtualCost := cost,
                  actions := st.actions ++
                    [.terminals { networkElementId := eid,
                                  actionType := mapToStringOpenClose normalValue }] }
          else .ok { st with virtualCost := cost }
    else if t = "ShuntCompensatorModification" then
      match a.shuntCompensator with
      | none => .ok st
      | some eid =>
        if networkIds.contains eid then
          .ok { st with actions := st.actions ++
                  [.shunt { networkElementId := eid, sectionCount := normalValue }] }
        else .ok st
    else .ok st

/-- The per-group body of `process_remedial_actions`: direction
uniqueness check, the alteration loop, the `NetworkAction`, and the
opposite-direction twin for `upAndDown` groups. -/
def process_remedial_action_group (networkIds : List String)
    (propertyRanges : List PropertyRangeRow) (g : RemedialActionGroup) :
    Except String (List NetworkAction) :=
  let altIds := g.alterations.map (·.mRID)
  let raRanges := propertyRanges.filter fun r => altIds.contains r.gridStateAlteration
  let directions := raRanges.map fun r => suffixAfterDot r.direction
  if 1 < directions.dedup.length then .ok []
  else do
    let st ← g.alterations.foldlM (process_alteration networkIds propertyRanges directions) {}
    if st.actions = [] then return []
    let terminals := st.actions.filterMap fun x => match x with
      | .terminals a => some a
      | _ => none
    let shunts := st.actions.filterMap fun x => match x with
      | .shunt a => some a
      | _ => none
    let na := mkNetworkAction g.mRID g.name g.operator st.virtualCost
      [("available", suffixAfterDot g.kind)] terminals shunts
    -- `directions.unique().item()` raises ValueError unless exactly one
    -- distinct direction exists
    match directions.dedup with
    | [] => .error "ValueError"
    | [d] =>
      if d = "upAndDown" ∧ na.terminalsConnectionActions ≠ none then do
        -- the comprehension applies `x.actionType` to EVERY element of
        -- `actions`, including ShuntCompensatorPositionActions, which
        -- have no such attribute: that read raises AttributeError
        let opposite ← st.actions.mapM fun x => match x with
          | .terminals a =>
            Except.ok { a with actionType := getOppositeTerminalConnectionValue a.actionType }
          | .shunt _ => Except.error "AttributeError"
        return [na, { na with id := g.mRID ++ "-opposite-direction",
                              terminalsConnectionActions := some opposite }]
      else return [na]
    | _ :: _ :: _ => .error "ValueError"

/-- The final value of the `virtual_cost` column of one remedial-action
group (the value the builder passes as `activationCost=` to the
`NetworkAction` constructor). -/
def remedial_action_virtual_cost (networkIds : List String)
    (propertyRanges : List PropertyRangeRow) (g : RemedialActionGroup) :
    Except String ℤ :=
  let altIds := g.alterations.map (·.mRID)
  let raRanges := propertyRanges.filter fun r => altIds.contains r.gridStateAlteration
  let directions := raRanges.map fun r => suffixAfterDot r.direction
  (g.alterations.foldlM (process_alteration networkIds propertyRanges directions) {}).map
    (·.virtualCost)

/-- `CracBuilder.process_remedial_actions` over all groups. -/
def process_remedial_actions (networkIds : List String)
    (propertyRanges : List PropertyRangeRow)
    (groups : List RemedialActionGroup) : Except String (List NetworkAction) :=
  groups.foldlM (fun acc g => do
    let nas ← process_remedial_action_group networkIds propertyRanges g
    return acc ++ nas) []

/-! ## `CracBuilder.build_crac` -/

/-- The inputs held by a `CracBuilder` at construction time, after the
dataframe plumbing: the network's subject ids, the grouped profile rows,
and the aggregated limit dictionaries. -/
structure BuilderInput where
  networkIds : List String := []
  contingencyRows : List ContingencyRow := []
  assessedElements : List AssessedElementRow := []
  remedialActionGroups : List RemedialActionGroup := []
  propertyRanges : List PropertyRangeRow := []
  limits : LimitMaps := {}
  deriving Repr, DecidableEq

/-- `CracBuilder.build_crac`: contingencies, then CNECs, then remedial
actions, then the limit update, then the consistency check. -/
def build_crac (inp : BuilderInput) (contingencyIds : Option (List String)) :
    Except String Crac := do
  let contingencies := process_contingencies contingencyIds inp.contingencyRows
  let flowCnecs := process_cnecs inp.networkIds contingencies inp.assessedElements
  let networkActions ← process_remedial_actions inp.networkIds inp.propertyRanges
    inp.remedialActionGroups
  let flowCnecs := update_limits_from_network inp.limits flowCnecs
  let flowCnecs := perform_cnec_consistency_check flowCnecs
  return { contingencies := contingencies, flowCnecs := flowCnecs,
           networkActions := networkActions }

/-! ## Serialization (`model_dump`, the `serialize_with_*` serializers) -/

/-- The `"_"`-prefixing applied by every `serialize_with_*` field
serializer of `models.py`. -/
def underscored (s : String) : String := "_" ++ s

/-- Serialized form of a `Contingency`: the `networkElementsIds`
serializer prefixes each element. -/
structure DumpedContingency where
  id : String
  name : String
  networkElementsIds : List String
  deriving Repr, DecidableEq

/-- The `networkElementsIds` field serializer of `models.Contingency`. -/
def Contingency.dumpModel (c : Contingency) : DumpedContingency :=
  { id := c.id, name := c.name,
    networkElementsIds := c.networkElementsIds.map underscored }

/-- Serialized form of a `FlowCnec`: `description` is excluded
(`Field(exclude=True)`) and `networkElementId` is prefixed. -/
structure DumpedFlowCnec where
  id : String
  name : String
  networkElementId : String
  operator : String
  thresholds : List Threshold
  instant : String
  optimized : Bool
  monitored : Bool
  nominalV : List (Option ℚ)
  contingencyId : Option String
  deriving Repr, DecidableEq

/-- The `model_dump` of a `FlowCnec` with its `networkElementId`
serializer. -/
def FlowCnec.dumpModel (c : FlowCnec) : DumpedFlowCnec :=
  { id := c.id, name := c.name, networkElementId := underscored c.networkElementId,
    operator := c.operator, thresholds := c.thresholds, instant := c.instant,
    optimized := c.optimized, monitored := c.monitored, nominalV := c.nominalV,
    contingencyId := c.contingencyId }

/-- The `networkElementId` serializer of `models.TerminalsAction`. -/
def TerminalsAction.dumpModel (a : TerminalsAction) : TerminalsAction :=
  { a with networkElementId := underscored a.networkElementId }

/-- The `networkElementId` serializer of
`models.ShuntCompensatorPositionAction`. -/
def ShuntCompensatorPositionAction.dumpModel
    (a : ShuntCompensatorPositionAction) : ShuntCompensatorPositionAction :=
  { a with networkElementId := underscored a.networkElementId }

/-- The `model_dump` of a `NetworkAction` (nested serializers applied to
its action lists). -/
def NetworkAction.dumpModel (na : NetworkAction) : NetworkAction :=
  { na with
    terminalsConnectionActions :=
      na.terminalsConnectionActions.map (·.map TerminalsAction.dumpModel)
    shuntCompensatorPositionActions :=
      na.shuntCompensatorPositionActions.map (·.map ShuntCompensatorPositionAction.dumpModel) }

/-- The keys present in `model_dump(exclude_none=True)` of a
`NetworkAction`: exactly its declared pydantic fields, minus the
optional action lists when they are `None`.  The model declares no
`activationCost` field. -/
def NetworkAction.dumpKeys (na : NetworkAction) : List String :=
  ["id", "name", "operator", "onInstantUsageRules"] ++
  (match na.terminalsConnectionActions with
   | some _ => ["terminalsConnectionActions"]
   | none => []) ++
  (match na.shuntCompensatorPositionActions with
   | some _ => ["shuntCompensatorPositionActions"]
   | none => [])

/-- The `exclude_3w_transformer_from_flow_cnecs` serializer of
`models.Crac`: drop CNECs whose name contains `"AT"` and whose operator
contains `"10X1001A1001A39W"`. -/
def exclude3wTransformer (cnecs : List FlowCnec) : List FlowCnec :=
  cnecs.filter fun c =>
    ¬ (containsSub "AT" c.name ∧ containsSub "10X1001A1001A39W" c.operator)

/-- The serialized CRAC document. -/
structure DumpedCrac where
  contingencies : List DumpedContingency
  flowCnecs : List DumpedFlowCnec
  networkActions : List NetworkAction
  deriving Repr, DecidableEq

/-- `Crac.model_dump` restricted to the three collections: the 3-winding
transformer filter runs on `flowCnecs`, then the field serializers. -/
def Crac.dumpModel (d : Crac) : DumpedCrac :=
  { contingencies := d.contingencies.map Contingency.dumpModel
    flowCnecs := (exclude3wTransformer d.flowCnecs).map FlowCnec.dumpModel
    networkActions := d.networkActions.map NetworkAction.dumpModel }

/-! ## Orchestrator (`HandlerVirtualOperator.handle`) -/

/-- One violation row of the SAR profile
(`PowerFlowResult` key table view). -/
structure SarViolationRow where
  isViolation : String
  valueAPresent : Bool := false
  contingency : String := ""
  deriving Repr, DecidableEq

/-- The violation filter of `handle`: keep rows with
`isViolation == 'true'`; with `current_violations_only` additionally
require `PowerFlowResult.valueA` to be non-null (no rows survive when
that column is absent altogether). -/
def filter_violations (currentViolationsOnly hasValueAColumn : Bool)
    (rows : List SarViolationRow) : List SarViolationRow :=
  let v := rows.filter fun r => r.isViolation = "true"
  if currentViolationsOnly then
    if hasValueAColumn then v.filter (·.valueAPresent) else []
  else v

/-- What `handle` did with a message: `returned` means the function
returned `(message, properties)` normally, counting the CRACs built and
the solver invocations; `raised` means a Python exception escaped. -/
inductive HandleOutcome where
  | returned (cracsBuilt : Nat) (solverRuns : Nat)
  | raised (err : String)
  deriving Repr, DecidableEq

/-- The control flow of `HandlerVirtualOperator.handle` around the
missing-content-reference check: no violations → return early; falsy
(`None` or empty) `content_reference` → log an error and return early;
otherwise build one CRAC and run the solver once per distinct violated
contingency. -/
def handler_handle (currentViolationsOnly hasValueAColumn : Bool)
    (rows : List SarViolationRow) (contentReference : Option String) :
    HandleOutcome :=
  let violations := filter_violations currentViolationsOnly hasValueAColumn rows
  if violations.isEmpty then .returned 0 0
  else
    match contentReference with
    | none => .returned 0 0
    | some cr =>
      if cr = "" then .returned 0 0
      else
        let contingencies := (violations.map (·.contingency)).dedup
        .returned contingencies.length contingencies.length

/-- Modelled from the spec: the AMQP consumer loop (the `rmq`
integration module is absent from the sources; only `worker.py` calls
it) acknowledges a message whose handler returns normally, dead-letters
the permanent errors `BadMessage`/`BadSource`/`SchemaError`, and
requeues transient errors. -/
inductive MessageDisposition where
  | acknowledged
  | requeued
  | deadLettered
  deriving Repr, DecidableEq

/-- Modelled from the spec: disposition of a message by the consumer
given the handler outcome (§5 and §7 of the spec). -/
def consumerDisposition : HandleOutcome → MessageDisposition
  | .returned _ _ => .acknowledged
  | .raised e =>
    if e = "BadMessage" ∨ e = "BadSource" ∨ e = "SchemaError" then .deadLettered
    else .requeued

/-! ## Concrete instances evaluated by the claim theorems -/

/-- A remedial action with one TopologyAction alteration whose property
range has direction `none` (the spec's scenario 6). -/
def raTopologyNone : RemedialActionGroup :=
  { mRID := "RA1", name := "ra one", operator := "OP",
    kind := "RemedialActionKind.curative",
    alterations := [{ mRID := "ALT1",
                      gridStateAlterationType := some "TopologyAction",
                      topologyEquipment := some "E9" }] }

/-- Builder input holding only `raTopologyNone`. -/
def inpTopologyNone : BuilderInput :=
  { networkIds := ["E9"]
    remedialActionGroups := [raTopologyNone]
    propertyRanges := [{ gridStateAlteration := "ALT1",
                         direction := "RelativeDirectionKind.none",
                         normalValue := 0 }] }

/-- An `upAndDown` remedial action with two TopologyAction alterations
(the spec's scenario 5: E4 close, E5 open). -/
def raUpAndDown : RemedialActionGroup :=
  { mRID := "RA3", name := "ra three", operator := "OP",
    kind := "RemedialActionKind.preventive",
    alterations := [{ mRID := "B1",
                      gridStateAlterationType := some "TopologyAction",
                      topologyEquipment := some "E4" },
                    { mRID := "B2",
                      gridStateAlterationType := some "TopologyAction",
                      topologyEquipment := some "E5" }] }

/-- Builder input holding only `raUpAndDown`. -/
def inpUpAndDown : BuilderInput :=
  { networkIds := ["E4", "E5"]
    remedialActionGroups := [raUpAndDown]
    propertyRanges :=
      [{ gridStateAlteration := "B1",
         direction := "RelativeDirectionKind.upAndDown", normalValue := 0 },
       { gridStateAlteration := "B2",
         direction := "RelativeDirectionKind.upAndDown", normalValue := 1 }] }

/-- An `upAndDown` remedial action mixing one TopologyAction with one
ShuntCompensatorModification, both of whose equipment is present in the
network. -/
def raUpAndDownMixed : RemedialActionGroup :=
  { mRID := "RA2", name := "ra two", operator := "OP",
    kind := "RemedialActionKind.curative",
    alterations := [{ mRID := "A1",
                      gridStateAlterationType := some "TopologyAction",
                      topologyEquipment := some "E4" },
                    { mRID := "A2",
                      gridStateAlterationType := some "ShuntCompensatorModification",
                      shuntCompensator := some "S1" }] }

/-- Builder input holding only `raUpAndDownMixed`. -/
def inpUpAndDownMixed : BuilderInput :=
  { networkIds := ["E4", "S1"]
    remedialActionGroups := [raUpAndDownMixed]
    propertyRanges :=
      [{ gridStateAlteration := "A1",
         direction := "RelativeDirectionKind.upAndDown", normalValue := 1 },
       { gridStateAlteration := "A2",
         direction := "RelativeDirectionKind.upAndDown", normalValue := 2 }] }

/-- An assessed element whose `normalEnabled` is the string `"TRUE"`:
not `"true"`, but not `"false"` either. -/
def aeUpperTrue : AssessedElementRow :=
  { mRID := "AE9", name := "ae nine", description := "",
    conductingEquipment := "E1", systemOperator := "OP1",
    normalEnabled := some "TRUE", inBaseCase := some "true" }

/-- An enabled, in-base-case assessed element on equipment `E1`. -/
def aeDemo : AssessedElementRow :=
  { mRID := "AE1", name := "ae one", description := "",
    conductingEquipment := "E1", systemOperator := "OP1",
    normalEnabled := some "true", inBaseCase := some "true" }

/-- An enabled, in-base-case assessed element on equipment `E2`, which
has no operational limits. -/
def aeNoLimit : AssessedElementRow :=
  { mRID := "AE2", name := "ae two", description := "",
    conductingEquipment := "E2", systemOperator := "OP1",
    normalEnabled := some "true", inBaseCase := some "true" }

/-- First demo contingency. -/
def ctOne : Contingency := { id := "CO1", name := "co one", networkElementsIds := ["E7"] }

/-- Second demo contingency. -/
def ctTwo : Contingency := { id := "CO2", name := "co two", networkElementsIds := ["E8"] }

/-- A builder input with two contingencies and two assessed elements;
`E1` has PATL/TATL current limits, `E2` has none. -/
def inpDemo : BuilderInput :=
  { networkIds := ["E1", "E2"]
    contingencyRows := [{ mRID := "CO1", name := "co one", equipmentIds := ["E7"] },
                        { mRID := "CO2", name := "co two", equipmentIds := ["E8"] }]
    assessedElements := [aeDemo, aeNoLimit]
    limits := { patlCurrent := [("E1", 120)]
                tatlCurrent := [("E1", 100)]
                voltages := [("E1", 330)]
                maxVoltage := [("E1", 330)] } }

/-- The document built from `inpDemo`. -/
def docDemo : Crac := ((build_crac inpDemo none).toOption).getD {}

/-- The limit maps of the C3 counterexample: equipment `E0` has a PATL
current limit whose value is `0` and a PATL apparent-power limit of 500. -/
def limitsZeroCurrent : LimitMaps :=
  { patlCurrent := [("E0", 0)], patlApparentPower := [("E0", 500)] }

/-- A preventive CNEC on equipment `E0`. -/
def cnecOnE0 : FlowCnec :=
  { id := "AE0-preventive", name := "ae zero", description := "",
    networkElementId := "E0", operator := "OP", thresholds := [{}] }

/-- The limit maps of the spec's scenario 3: `E3` has only a PATL
apparent-power limit of 500, at 400 kV. -/
def limitsScenario3 : LimitMaps :=
  { patlApparentPower := [("E3", 500)]
    voltages := [("E3", 400)], maxVoltage := [("E3", 400)] }

/-- A preventive CNEC on equipment `E3`. -/
def cnecOnE3 : FlowCnec :=
  { id := "AE3-preventive", name := "ae three", description := "",
    networkElementId := "E3", operator := "OP", thresholds := [{}] }

/-- One current violation on contingency `CO1`. -/
def sarViolation : SarViolationRow :=
  { isViolation := "true", valueAPresent := true, contingency := "CO1" }

/-! ## Claim theorems -/

/-- **C1.** The claim asserts that a remedial action with a
TopologyAction alteration and direction `none` or `up` yields a
NetworkAction with `activationCost = 50`.  The builder does compute a
`virtual_cost` of 50 for such an action and passes it as
`activationCost=` — but the pydantic `NetworkAction` model declares no
such field and silently ignores the keyword, so the single emitted
NetworkAction carries no activation cost at all: `activationCost` is
absent from its serialized keys. -/
theorem C1_activation_cost_never_emitted :
    remedial_action_virtual_cost inpTopologyNone.networkIds
      inpTopologyNone.propertyRanges raTopologyNone = .ok 50 ∧
    (build_crac inpTopologyNone none).map
        (fun d => d.networkActions.map NetworkAction.dumpKeys) =
      .ok [["id", "name", "operator", "onInstantUsageRules",
            "terminalsConnectionActions"]] ∧
    "activationCost" ∉
      ["id", "name", "operator", "onInstantUsageRules",
       "terminalsConnectionActions"] := by
  refine ⟨rfl, rfl, by decide⟩

/-- **C5.** For an `upAndDown` remedial action whose surviving
alterations are all TerminalsActions, the builder emits exactly two
NetworkActions, the second with the `-opposite-direction` id suffix and
pointwise-inverted action types — but when the surviving alterations
also include a ShuntCompensatorPositionAction, the opposite-direction
comprehension reads `x.actionType` on that object and the whole build
raises AttributeError, emitting nothing. -/
theorem C5_opposite_direction_crashes_on_mixed_actions :
    (build_crac inpUpAndDown none).map
        (fun d => d.networkActions.map
          fun a => (a.id, a.terminalsConnectionActions)) =
      .ok [("RA3", some [{ networkElementId := "E4", actionType := "close" },
                         { networkElementId := "E5", actionType := "open" }]),
           ("RA3-opposite-direction",
            some [{ networkElementId := "E4", actionType := "open" },
                  { networkElementId := "E5", actionType := "close" }])] ∧
    build_crac inpUpAndDownMixed none = .error "AttributeError" := by
  refine ⟨rfl, rfl⟩

/-- **C6 (counterexample).** The claim says an assessed element is
skipped whenever `normalEnabled ≠ "true"`.  The element `aeUpperTrue`
has `normalEnabled = "TRUE"`, which is not `"true"`, yet the builder
processes it and emits its preventive CNEC: the source only skips on the
exact string `"false"`. -/
theorem C6_uppercase_true_is_processed :
    aeUpperTrue.normalEnabled.getD "false" ≠ "true" ∧
    process_cnecs ["E1"] [] [aeUpperTrue] = [preventiveCnec aeUpperTrue] ∧
    process_cnecs ["E1"] [] [aeUpperTrue] ≠ [] := by
  refine ⟨by decide, rfl, by decide⟩

/-- **C6 (amended).** During CNEC processing an assessed element is
skipped iff its `normalEnabled` value — with a missing value defaulting
to `"false"` — equals the exact string `"false"`; every other element
whose conducting equipment is in the network is processed (in
particular every element with `normalEnabled = "true"`). -/
theorem C6_normalEnabled_gate (n : List String) (conts : List Contingency)
    (ae : AssessedElementRow) :
    process_cnecs n conts [ae] =
      if ae.conductingEquipment ∈ n ∧ ¬ normalEnabledSkip ae = true
      then cnecsForAssessedElement conts ae
      else [] := by
  by_cases h1 : ae.conductingEquipment ∈ n <;>
    by_cases h2 : normalEnabledSkip ae = true <;>
      simp [process_cnecs, h1, h2]

/-- **C7 (counterexample).** The claim says a message whose headers lack
`content_reference` is failed with `BadMessage` and dead-lettered.  On a
message with one current violation and no content reference, `handle`
instead returns `(message, properties)` normally — exactly like the
success path — so the consumer acknowledges it; it is not
dead-lettered.  (No CRAC is built and no solver is invoked, which is the
part of the claim that does hold.) -/
theorem C7_missing_reference_is_acknowledged :
    handler_handle false false [sarViolation] none = .returned 0 0 ∧
    consumerDisposition (handler_handle false false [sarViolation] none) =
      MessageDisposition.acknowledged ∧
    MessageDisposition.acknowledged ≠ MessageDisposition.deadLettered ∧
    filter_violations false false [sarViolation] ≠ [] := by
  refine ⟨rfl, rfl, by decide, by decide⟩

/-- **C7 (amended).** When the headers lack `content_reference`, `handle`
logs an error and returns the `(message, properties)` pair normally
(the same shape as the success path), so the consumer acknowledges the
message; no CRAC is built and the solver is never invoked for that
message.  No `BadMessage` error is raised anywhere. -/
theorem C7_missing_reference_returns_normally (currentOnly hasCol : Bool)
    (rows : List SarViolationRow) :
    handler_handle currentOnly hasCol rows none = .returned 0 0 ∧
    consumerDisposition (handler_handle currentOnly hasCol rows none) =
      MessageDisposition.acknowledged := by
  have h : handler_handle currentOnly hasCol rows none = .returned 0 0 := by
    unfold handler_handle
    by_cases hv : (filter_violations currentOnly hasCol rows).isEmpty <;> simp [hv]
  exact ⟨h, by rw [h]; rfl⟩

/-! ### Structural lemmas about the build pipeline -/

/-- Destructuring a successful `build_crac`. -/
theorem build_crac_ok {inp : BuilderInput} {cids : Option (List String)}
    {doc : Crac} (h : build_crac inp cids = .ok doc) :
    doc.contingencies = process_contingencies cids inp.contingencyRows ∧
    doc.flowCnecs = perform_cnec_consistency_check
      (update_limits_from_network inp.limits
        (process_cnecs inp.networkIds (process_contingencies cids inp.contingencyRows)
          inp.assessedElements)) := by
  unfold build_crac at h
  cases hra : process_remedial_actions inp.networkIds inp.propertyRanges
      inp.remedialActionGroups with
  | error e =>
    rw [hra] at h
    simp [Bind.bind, Except.bind] at h
  | ok nas =>
    rw [hra] at h
    simp only [Bind.bind, Except.bind, pure, Except.pure, Except.ok.injEq] at h
    rw [← h]
    exact ⟨rfl, rfl⟩

/-- Membership in `process_cnecs`, unfolded to the per-element gates. -/
theorem mem_process_cnecs {n : List String} {conts : List Contingency}
    {aes : List AssessedElementRow} {c : FlowCnec} :
    c ∈ process_cnecs n conts aes ↔
      ∃ ae ∈ aes, ae.conductingEquipment ∈ n ∧ normalEnabledSkip ae = false ∧
        c ∈ cnecsForAssessedElement conts ae := by
  unfold process_cnecs
  simp only [List.mem_flatMap, List.mem_filter, Bool.not_eq_true', List.contains,
    List.elem_eq_mem, decide_eq_true_eq]
  constructor
  · rintro ⟨ae, ⟨⟨hae, hmem⟩, hskip⟩, hc⟩
    exact ⟨ae, hae, hmem, Bool.eq_false_iff.mpr hskip, hc⟩
  · rintro ⟨ae, hae, hmem, hskip, hc⟩
    exact ⟨ae, ⟨⟨hae, hmem⟩, Bool.eq_false_iff.mp hskip⟩, hc⟩

/-- Membership in the CNECs of one assessed element. -/
theorem mem_cnecsForAssessedElement {conts : List Contingency}
    {ae : AssessedElementRow} {c : FlowCnec} :
    c ∈ cnecsForAssessedElement conts ae ↔
      (inBaseCase ae = true ∧ c = preventiveCnec ae) ∨
      ∃ ct ∈ conts, c = curativeCnec ae ct := by
  unfold cnecsForAssessedElement
  by_cases h : inBaseCase ae <;> simp [h, eq_comm]

/-- `process_cnecs` emits every CNEC with the single default threshold. -/
theorem thresholds_process_cnecs {n : List String} {conts : List Contingency}
    {aes : List AssessedElementRow} :
    ∀ c ∈ process_cnecs n conts aes, c.thresholds = [{}] := by
  intro c hc
  rcases mem_process_cnecs.mp hc with ⟨ae, -, -, -, hc⟩
  rcases mem_cnecsForAssessedElement.mp hc with ⟨-, rfl⟩ | ⟨ct, -, rfl⟩ <;> rfl

/-- The nominal-voltage update only touches `nominalV`. -/
theorem updateNominalVoltage_eq (m : LimitMaps) (c : FlowCnec) :
    ∃ nv, updateNominalVoltage m c = { c with nominalV := nv } := by
  unfold updateNominalVoltage
  cases m.voltages.lookup c.networkElementId with
  | none => exact ⟨c.nominalV, rfl⟩
  | some v =>
    dsimp only
    split_ifs <;> exact ⟨_, rfl⟩

/-- The per-CNEC limit update only touches `nominalV` and `thresholds`. -/
theorem update_limits_cnec_eq (m : LimitMaps) (c : FlowCnec) :
    ∃ nv th, update_limits_cnec m c = { c with nominalV := nv, thresholds := th } := by
  obtain ⟨nv, hnv⟩ := updateNominalVoltage_eq m c
  simp only [update_limits_cnec]
  rw [hnv]
  cases selectLimit m { c with nominalV := nv } with
  | none => exact ⟨nv, c.thresholds, rfl⟩
  | some lu => exact ⟨nv, _, rfl⟩

/-- The per-CNEC limit update leaves the thresholds unchanged or
replaces them by a single threshold. -/
theorem update_limits_cnec_thresholds (m : LimitMaps) (c : FlowCnec) :
    (update_limits_cnec m c).thresholds = c.thresholds ∨
    ∃ t, (update_limits_cnec m c).thresholds = [t] := by
  obtain ⟨nv, hnv⟩ := updateNominalVoltage_eq m c
  simp only [update_limits_cnec]
  rw [hnv]
  cases selectLimit m { c with nominalV := nv } with
  | none => exact .inl rfl
  | some lu => exact .inr ⟨_, rfl⟩

/-- Every CNEC surviving the limit-update pass on builder output carries
exactly one threshold. -/
theorem single_threshold_after_update {inp : BuilderInput}
    {cids : Option (List String)} :
    ∀ c ∈ update_limits_from_network inp.limits
      (process_cnecs inp.networkIds (process_contingencies cids inp.contingencyRows)
        inp.assessedElements), ∃ t, c.thresholds = [t] := by
  intro c hc
  rcases List.mem_map.mp hc with ⟨c0, hc0, rfl⟩
  rcases update_limits_cnec_thresholds inp.limits c0 with he | ⟨t, ht⟩
  · exact ⟨{}, by rw [he, thresholds_process_cnecs c0 hc0]⟩
  · exact ⟨t, ht⟩

/-- Membership in the kept CNECs of a successfully built document. -/
theorem mem_flowCnecs_built {inp : BuilderInput} {cids : Option (List String)}
    {doc : Crac} (h : build_crac inp cids = .ok doc) (c : FlowCnec) :
    c ∈ doc.flowCnecs ↔
      c ∈ update_limits_from_network inp.limits
        (process_cnecs inp.networkIds (process_contingencies cids inp.contingencyRows)
          inp.assessedElements) ∧ cnecRemoved c = false := by
  rw [(build_crac_ok h).2]
  unfold perform_cnec_consistency_check
  rw [List.mem_filter]
  constructor
  · rintro ⟨hp, hq⟩
    exact ⟨hp, Bool.eq_false_iff.mpr (of_decide_eq_true hq)⟩
  · rintro ⟨hp, hq⟩
    exact ⟨hp, decide_eq_true (Bool.eq_false_iff.mp hq)⟩

/-- **C2.** The consistency pass at the end of `build_crac` removes
exactly the CNECs whose (single) threshold is `(min=0, max=0)`: the
returned document contains no all-zero-threshold FlowCnec, and every
FlowCnec of the limit-updated list that has a nonzero threshold entry is
retained. -/
theorem C2_consistency_removes_zero_thresholds (inp : BuilderInput)
    (cids : Option (List String)) (doc : Crac)
    (h : build_crac inp cids = .ok doc) :
    (∀ c ∈ doc.flowCnecs, ∃ t ∈ c.thresholds, t.min ≠ 0 ∨ t.max ≠ 0) ∧
    (∀ c ∈ update_limits_from_network inp.limits
        (process_cnecs inp.networkIds (process_contingencies cids inp.contingencyRows)
          inp.assessedElements),
      (c ∈ doc.flowCnecs ↔ ¬ ∀ t ∈ c.thresholds, t.min = 0 ∧ t.max = 0)) := by
  constructor
  · intro c hcdoc
    obtain ⟨hpre, hrem⟩ := (mem_flowCnecs_built h c).mp hcdoc
    obtain ⟨t, ht⟩ := single_threshold_after_update c hpre
    rw [ht]
    simp only [cnecRemoved, ht, List.any_cons, List.any_nil, Bool.or_false,
      decide_eq_false_iff_not] at hrem
    refine ⟨t, List.mem_singleton_self t, ?_⟩
    by_contra hcon
    push_neg at hcon
    exact hrem ⟨hcon.1, hcon.2⟩
  · intro c hpre
    rw [mem_flowCnecs_built h c]
    obtain ⟨t, ht⟩ := single_threshold_after_update c hpre
    constructor
    · rintro ⟨-, hrem⟩ hall
      obtain ⟨h1, h2⟩ := hall t (by rw [ht]; exact List.mem_singleton_self t)
      simp [cnecRemoved, ht, h1, h2] at hrem
    · intro hnall
      refine ⟨hpre, ?_⟩
      simp only [cnecRemoved, ht, List.any_cons, List.any_nil, Bool.or_false,
        decide_eq_false_iff_not]
      intro hzero
      exact hnall (by intro t' ht'; rw [ht] at ht'; rw [List.mem_singleton.mp ht']; exact hzero)

/-- Witness for C2 on the demo input: the retained preventive CNEC of
`aeDemo` has a nonzero threshold entry. -/
theorem C2_consistency_removes_zero_thresholds_witness :
    ∃ t ∈ (update_limits_cnec inpDemo.limits (preventiveCnec aeDemo)).thresholds,
      t.min ≠ 0 ∨ t.max ≠ 0 :=
  (C2_consistency_removes_zero_thresholds inpDemo none docDemo rfl).1 _ (by decide)

/-- **C4.** In every successfully built document, a FlowCnec's
`contingencyId` is set iff its instant is `curative`; each curative CNEC
carries the id of one of the document's contingencies, and every
preventive CNEC has no `contingencyId`. -/
theorem C4_contingencyId_iff_curative (inp : BuilderInput)
    (cids : Option (List String)) (doc : Crac)
    (h : build_crac inp cids = .ok doc) :
    ∀ c ∈ doc.flowCnecs,
      (c.contingencyId.isSome ↔ c.instant = "curative") ∧
      (c.instant = "curative" → ∃ ct ∈ doc.contingencies, c.contingencyId = some ct.id) ∧
      (c.instant = "preventive" → c.contingencyId = none) := by
  intro c hcdoc
  obtain ⟨hpre, -⟩ := (mem_flowCnecs_built h c).mp hcdoc
  rcases List.mem_map.mp hpre with ⟨c0, hc0, rfl⟩
  rcases mem_process_cnecs.mp hc0 with ⟨ae, -, -, -, hke⟩
  obtain ⟨nv, th, he⟩ := update_limits_cnec_eq inp.limits c0
  rcases mem_cnecsForAssessedElement.mp hke with ⟨-, rfl⟩ | ⟨ct, hct, rfl⟩
  · rw [he]
    refine ⟨by simp [preventiveCnec, baseCnec], ?_, fun _ => rfl⟩
    intro hcur
    simp [preventiveCnec, baseCnec] at hcur
  · rw [he]
    refine ⟨by simp [curativeCnec, baseCnec], ?_, ?_⟩
    · intro _
      exact ⟨ct, by rw [(build_crac_ok h).1]; exact hct, rfl⟩
    · intro hcur
      simp [curativeCnec, baseCnec] at hcur

/-- Witness for C4 on the demo input: the curative CNEC of `aeDemo` on
contingency `CO1` satisfies the invariant. -/
theorem C4_contingencyId_iff_curative_witness :
    ((update_limits_cnec inpDemo.limits (curativeCnec aeDemo ctOne)).contingencyId.isSome ↔
      (update_limits_cnec inpDemo.limits (curativeCnec aeDemo ctOne)).instant = "curative") ∧
    ((update_limits_cnec inpDemo.limits (curativeCnec aeDemo ctOne)).instant = "curative" →
      ∃ ct ∈ docDemo.contingencies,
        (update_limits_cnec inpDemo.limits (curativeCnec aeDemo ctOne)).contingencyId =
          some ct.id) ∧
    ((update_limits_cnec inpDemo.limits (curativeCnec aeDemo ctOne)).instant = "preventive" →
      (update_limits_cnec inpDemo.limits (curativeCnec aeDemo ctOne)).contingencyId = none) :=
  C4_contingencyId_iff_curative inpDemo none docDemo rfl _ (by decide)

/-- The nominal-voltage update ignores `contingencyId`. -/
theorem updateNominalVoltage_contingencyId (m : LimitMaps) (c : FlowCnec)
    (a : Option String) :
    updateNominalVoltage m { c with contingencyId := a } =
      { updateNominalVoltage m c with contingencyId := a } := by
  unfold updateNominalVoltage
  cases m.voltages.lookup c.networkElementId with
  | none => rfl
  | some v =>
    dsimp only
    split_ifs <;> rfl

/-- The limit selection ignores `contingencyId`. -/
theorem selectLimit_contingencyId (m : LimitMaps) (c : FlowCnec)
    (a : Option String) :
    selectLimit m { c with contingencyId := a } = selectLimit m c := rfl

/-- The per-CNEC limit update commutes with replacing `contingencyId`. -/
theorem update_limits_cnec_contingencyId (m : LimitMaps) (c : FlowCnec)
    (a : Option String) :
    update_limits_cnec m { c with contingencyId := a } =
      { update_limits_cnec m c with contingencyId := a } := by
  simp only [update_limits_cnec]
  rw [updateNominalVoltage_contingencyId, selectLimit_contingencyId]
  cases selectLimit m (updateNominalVoltage m c) with
  | none => rfl
  | some lu => rfl

/-- **C10.** All curative CNECs of one processed assessed element share
the id `<mRID>-curative` regardless of the contingency; hence with two
retained contingency instances the built document holds two FlowCnecs
with the same id that differ only in `contingencyId`. -/
theorem C10_duplicate_curative_ids (inp : BuilderInput)
    (cids : Option (List String)) (doc : Crac) (ae : AssessedElementRow)
    (ct1 ct2 : Contingency)
    (h : build_crac inp cids = .ok doc)
    (hae : ae ∈ inp.assessedElements)
    (hnet : ae.conductingEquipment ∈ inp.networkIds)
    (hskip : normalEnabledSkip ae = false)
    (h1 : ct1 ∈ process_contingencies cids inp.contingencyRows)
    (h2 : ct2 ∈ process_contingencies cids inp.contingencyRows)
    (hne : ct1.id ≠ ct2.id)
    (hr1 : cnecRemoved (update_limits_cnec inp.limits (curativeCnec ae ct1)) = false)
    (hr2 : cnecRemoved (update_limits_cnec inp.limits (curativeCnec ae ct2)) = false) :
    (∀ ct : Contingency, (curativeCnec ae ct).id = ae.mRID ++ "-curative") ∧
    update_limits_cnec inp.limits (curativeCnec ae ct1) ∈ doc.flowCnecs ∧
    update_limits_cnec inp.limits (curativeCnec ae ct2) ∈ doc.flowCnecs ∧
    (update_limits_cnec inp.limits (curativeCnec ae ct1)).id =
      (update_limits_cnec inp.limits (curativeCnec ae ct2)).id ∧
    (update_limits_cnec inp.limits (curativeCnec ae ct1)).contingencyId ≠
      (update_limits_cnec inp.limits (curativeCnec ae ct2)).contingencyId ∧
    update_limits_cnec inp.limits (curativeCnec ae ct2) =
      { update_limits_cnec inp.limits (curativeCnec ae ct1) with
        contingencyId := some ct2.id } := by
  have hmem : ∀ ct ∈ process_contingencies cids inp.contingencyRows,
      cnecRemoved (update_limits_cnec inp.limits (curativeCnec ae ct)) = false →
      update_limits_cnec inp.limits (curativeCnec ae ct) ∈ doc.flowCnecs := by
    intro ct hct hrm
    rw [mem_flowCnecs_built h]
    refine ⟨List.mem_map.mpr ⟨curativeCnec ae ct, ?_, rfl⟩, hrm⟩
    exact mem_process_cnecs.mpr ⟨ae, hae, hnet, hskip,
      mem_cnecsForAssessedElement.mpr (.inr ⟨ct, hct, rfl⟩)⟩
  obtain ⟨nv1, th1, he1⟩ := update_limits_cnec_eq inp.limits (curativeCnec ae ct1)
  obtain ⟨nv2, th2, he2⟩ := update_limits_cnec_eq inp.limits (curativeCnec ae ct2)
  refine ⟨fun ct => rfl, hmem ct1 h1 hr1, hmem ct2 h2 hr2, ?_, ?_, ?_⟩
  · rw [he1, he2]; rfl
  · rw [he1, he2]
    simpa [curativeCnec, baseCnec] using hne
  · have hc2 : curativeCnec ae ct2 =
        { curativeCnec ae ct1 with contingencyId := some ct2.id } := rfl
    rw [hc2, update_limits_cnec_contingencyId]

/-! ### Limit-probe lemmas -/

/-- A lookup in a value-nonnegative association list is nonnegative. -/
theorem lookup_nonneg {l : List (String × ℚ)} (hl : ∀ p ∈ l, 0 ≤ p.2)
    {k : String} {v : ℚ} (h : l.lookup k = some v) : 0 ≤ v := by
  induction l with
  | nil => simp [List.lookup] at h
  | cons p rest ih =>
    rw [List.lookup] at h
    split at h
    · simp only [Option.some.injEq] at h
      subst h
      exact hl p (List.mem_cons_self p rest)
    · exact ih (fun q hq => hl q (List.mem_cons_of_mem p hq)) h

/-- A truthy optional value is the underlying value, and nonzero. -/
theorem truthyRat_eq_some {o : Option ℚ} {l : ℚ} (h : truthyRat o = some l) :
    o = some l ∧ l ≠ 0 := by
  cases o with
  | none => simp [truthyRat] at h
  | some v =>
    simp only [truthyRat] at h
    split at h
    · simp at h
    · simp only [Option.some.injEq] at h
      subst h
      constructor
      · rfl
      · assumption

/-- The instant-selected-with-fallback lookup is nonnegative when both
dictionaries are. -/
theorem get_limit_fallback_nonneg {primary fallback : List (String × ℚ)}
    (hp : ∀ p ∈ primary, 0 ≤ p.2) (hf : ∀ p ∈ fallback, 0 ≤ p.2)
    {k : String} {v : ℚ} (h : get_limit_fallback_to_patl k primary fallback = some v) :
    0 ≤ v := by
  unfold get_limit_fallback_to_patl at h
  split at h
  · simp only [Option.some.injEq] at h
    subst h
    next heq => exact lookup_nonneg hp heq
  · exact lookup_nonneg hf h

/-- Any successful probe returns a nonnegative value when the limit
dictionaries are nonnegative. -/
theorem currentProbe_nonneg {m : LimitMaps} {c : FlowCnec} {l : ℚ}
    (hm : nonnegLimitMaps m) (h : currentProbe m c = some l) : 0 ≤ l := by
  obtain ⟨h1, -⟩ := truthyRat_eq_some h
  refine get_limit_fallback_nonneg ?_ hm.1 h1
  split_ifs
  · exact hm.1
  · exact hm.2.1

/-- As `currentProbe_nonneg`, for the active-power probe. -/
theorem activePowerProbe_nonneg {m : LimitMaps} {c : FlowCnec} {l : ℚ}
    (hm : nonnegLimitMaps m) (h : activePowerProbe m c = some l) : 0 ≤ l := by
  obtain ⟨h1, -⟩ := truthyRat_eq_some h
  refine get_limit_fallback_nonneg ?_ hm.2.2.1 h1
  split_ifs
  · exact hm.2.2.1
  · exact hm.2.2.2.1

/-- As `currentProbe_nonneg`, for the apparent-power probe. -/
theorem apparentPowerProbe_nonneg {m : LimitMaps} {c : FlowCnec} {l : ℚ}
    (hm : nonnegLimitMaps m) (h : apparentPowerProbe m c = some l) : 0 ≤ l := by
  obtain ⟨h1, -⟩ := truthyRat_eq_some h
  refine get_limit_fallback_nonneg ?_ hm.2.2.2.2.1 h1
  split_ifs
  · exact hm.2.2.2.2.1
  · exact hm.2.2.2.2.2

/-- The limit selection ignores `nominalV`. -/
theorem selectLimit_nominalV (m : LimitMaps) (c : FlowCnec)
    (nv : List (Option ℚ)) :
    selectLimit m { c with nominalV := nv } = selectLimit m c := rfl

/-- The per-CNEC limit update writes exactly the selected threshold. -/
theorem update_limits_cnec_of_selectLimit {m : LimitMaps} {c : FlowCnec}
    {l : ℚ} {u : String} (hs : selectLimit m c = some (l, u)) :
    (update_limits_cnec m c).thresholds =
      [{ unit := u, min := l * (-1), max := l, side := 1 }] := by
  obtain ⟨nv, hnv⟩ := updateNominalVoltage_eq m c
  simp only [update_limits_cnec]
  rw [hnv, selectLimit_nominalV, hs]

/-- The per-CNEC limit update is a no-op on thresholds when no probe
succeeds. -/
theorem update_limits_cnec_of_selectLimit_none {m : LimitMaps} {c : FlowCnec}
    (hs : selectLimit m c = none) :
    (update_limits_cnec m c).thresholds = c.thresholds := by
  obtain ⟨nv, hnv⟩ := updateNominalVoltage_eq m c
  simp only [update_limits_cnec]
  rw [hnv, selectLimit_nominalV, hs]

/-- `pyRound` of a nonnegative rational is nonnegative. -/
theorem pyRound_nonneg {q : ℚ} (h : 0 ≤ q) : 0 ≤ pyRound q := by
  have h0 : (0:ℤ) ≤ ⌊q⌋ := Int.floor_nonneg.mpr h
  simp only [pyRound]
  split_ifs <;> omega

/-- `pyRound1` of a nonnegative rational is nonnegative. -/
theorem pyRound1_nonneg {q : ℚ} (h : 0 ≤ q) : 0 ≤ pyRound1 q := by
  unfold pyRound1
  have h1 : (0:ℚ) ≤ (pyRound (q * 10) : ℚ) := by
    exact_mod_cast pyRound_nonneg (by positivity)
  exact div_nonneg h1 (by norm_num)

/-- **C3 (counterexample).** The claim says the limit update stops at
the first probe *returning a value*.  On equipment `E0` the current
probe's lookup does return a value — `0` — yet the update falls through
to the apparent-power probe and emits a megawatt threshold of ±450: a
probe value of `0` is falsy for the walrus `if` and is skipped. -/
theorem C3_zero_current_limit_falls_through :
    get_limit_fallback_to_patl cnecOnE0.networkElementId
      limitsZeroCurrent.patlCurrent limitsZeroCurrent.patlCurrent = some 0 ∧
    (update_limits_cnec limitsZeroCurrent cnecOnE0).thresholds =
      [{ unit := "megawatt", min := -450, max := 450, side := 1 }] := by
  refine ⟨rfl, by decide⟩

/-- **C3 (amended).** For nonnegative limit dictionaries, the limit
update probes current, then active power, then apparent power (each
selected by instant, TATL falling back to PATL), stops at the first
probe returning a **nonzero** value, scales an apparent-power winner by
the 0.9 power factor rounded to one decimal with unit megawatt, and
writes the single threshold `(min = -|limit|, max = +|limit|, side = 1,
unit = winning unit)`; when every probe fails the thresholds are left
unchanged. -/
theorem C3_limit_update_probe_order (m : LimitMaps) (c : FlowCnec)
    (hm : nonnegLimitMaps m) :
    (∀ l, currentProbe m c = some l →
      (update_limits_cnec m c).thresholds =
        [{ unit := "ampere", min := -|l|, max := |l|, side := 1 }]) ∧
    (currentProbe m c = none → ∀ l, activePowerProbe m c = some l →
      (update_limits_cnec m c).thresholds =
        [{ unit := "megawatt", min := -|l|, max := |l|, side := 1 }]) ∧
    (currentProbe m c = none → activePowerProbe m c = none →
      ∀ l, apparentPowerProbe m c = some l →
      (update_limits_cnec m c).thresholds =
        [{ unit := "megawatt", min := -|pyRound1 (l * (9/10))|,
           max := |pyRound1 (l * (9/10))|, side := 1 }]) ∧
    (currentProbe m c = none → activePowerProbe m c = none →
      apparentPowerProbe m c = none →
      (update_limits_cnec m c).thresholds = c.thresholds) := by
  refine ⟨?_, ?_, ?_, ?_⟩
  · intro l hcur
    have hl := currentProbe_nonneg hm hcur
    have hs : selectLimit m c = some (l, "ampere") := by
      unfold selectLimit
      rw [hcur]
    rw [update_limits_cnec_of_selectLimit hs, abs_of_nonneg hl]
    norm_num [mul_comm]
  · intro hcur l hact
    have hl := activePowerProbe_nonneg hm hact
    have hs : selectLimit m c = some (l, "megawatt") := by
      unfold selectLimit
      rw [hcur, hact]
    rw [update_limits_cnec_of_selectLimit hs, abs_of_nonneg hl]
    norm_num [mul_comm]
  · intro hcur hact l happ
    have hl := apparentPowerProbe_nonneg hm happ
    have hr : 0 ≤ pyRound1 (l * (9/10)) := pyRound1_nonneg (by positivity)
    have hs : selectLimit m c = some (pyRound1 (l * (9/10)), "megawatt") := by
      unfold selectLimit
      rw [hcur, hact, happ]
    rw [update_limits_cnec_of_selectLimit hs, abs_of_nonneg hr]
    norm_num [mul_comm]
  · intro hcur hact happ
    have hs : selectLimit m c = none := by
      unfold selectLimit
      rw [hcur, hact, happ]
    exact update_limits_cnec_of_selectLimit_none hs

/-- Witness for C3 on the spec's scenario 3: only an apparent-power PATL
of 500 exists, so the preventive threshold is megawatt ±450. -/
theorem C3_limit_update_probe_order_witness :
    nonnegLimitMaps limitsScenario3 ∧
    (update_limits_cnec limitsScenario3 cnecOnE3).thresholds =
      [{ unit := "megawatt", min := -450, max := 450, side := 1 }] := by
  refine ⟨by decide, ?_⟩
  have h := (C3_limit_update_probe_order limitsScenario3 cnecOnE3 (by decide)).2.2.1
    rfl rfl 500 rfl
  rw [h]
  decide

/-! ### Rounding lemmas for the MW synthesis -/

/-- Half-to-even rounding differs from its argument by at most 1/2. -/
theorem pyRound_sub_abs_le (q : ℚ) : |(pyRound q : ℚ) - q| ≤ 1/2 := by
  have h1 : (⌊q⌋ : ℚ) ≤ q := Int.floor_le q
  have h2 : q < ⌊q⌋ + 1 := Int.lt_floor_add_one q
  simp only [pyRound]
  split_ifs <;>
    · rw [abs_le]
      push_cast
      constructor <;> linarith

/-- Half-to-even rounding recovers an integer strictly within 1/2. -/
theorem pyRound_eq_of_abs_lt {q : ℚ} {n : ℤ} (h : |q - n| < 1/2) :
    pyRound q = n := by
  have hb := pyRound_sub_abs_le q
  have h1 : |(pyRound q : ℚ) - n| < 1 := by
    calc |(pyRound q : ℚ) - n| ≤ |(pyRound q : ℚ) - q| + |q - n| :=
          abs_sub_le _ q _
      _ < 1 := by linarith
  have h2 : |((pyRound q - n : ℤ) : ℚ)| < ((1 : ℤ) : ℚ) := by
    push_cast
    exact h1
  rw [← Int.cast_abs, Int.cast_lt] at h2
  have h3 := abs_lt.mp h2
  omega

/-- **C8.** In the limits table, rows with a present
`ActivePowerLimit.value` are unchanged; rows with it absent and both
`CurrentLimit.value` and `SvVoltage.v` present receive
`round(sqrt(3) * I * V / 1000, 1)` megawatts (with the float value of
`3 ** 0.5`); and for an integer current `A ≥ 0` and a voltage
`V ≥ 58` (true of every grid voltage level) the synthesis is reversible
within rounding: `round(MW * 1000 / (sqrt(3) * V), 0) = A` exactly. -/
theorem C8_mw_synthesis_round_trip (r : LimitRow) (a : ℤ) (v : ℚ)
    (ha : 0 ≤ a) (hv : 58 ≤ v) :
    (∀ x, r.activePowerValue = some x → synthesize_active_power r = r) ∧
    (r.activePowerValue = none → ∀ i w, r.currentValue = some i →
      r.svVoltage = some w →
      (synthesize_active_power r).activePowerValue = some (syntheticMW i w)) ∧
    pyRound (syntheticMW a v * 1000 / (sqrt3Float * v)) = a := by
  refine ⟨?_, ?_, ?_⟩
  · intro x hx
    unfold synthesize_active_power
    rw [hx]
  · intro hap i w hi hw
    unfold synthesize_active_power
    rw [hap, hi, hw]
  · have hs : (173/100 : ℚ) < sqrt3Float := by norm_num [sqrt3Float]
    have hv0 : (0:ℚ) < v := lt_of_lt_of_le (by norm_num) hv
    have hs0 : (0:ℚ) < sqrt3Float := lt_trans (by norm_num) hs
    have hsv : (100:ℚ) < sqrt3Float * v := by
      have h1 : (173/100 : ℚ) * 58 ≤ sqrt3Float * v :=
        mul_le_mul (le_of_lt hs) hv (by norm_num) (le_of_lt hs0)
      linarith
    have hsv0 : sqrt3Float * v ≠ 0 := ne_of_gt (by linarith)
    set k : ℚ := sqrt3Float * a * v / 1000 with hk
    have herr : |syntheticMW a v - k| ≤ 1/20 := by
      have hd : syntheticMW a v - k = ((pyRound (k * 10) : ℚ) - k * 10) / 10 := by
        unfold syntheticMW pyRound1
        rw [hk]
        ring
      rw [hd, abs_div, abs_of_pos (by norm_num : (0:ℚ) < 10)]
      have := pyRound_sub_abs_le (k * 10)
      linarith
    have key : syntheticMW a v * 1000 / (sqrt3Float * v) - a =
        (syntheticMW a v - k) * (1000 / (sqrt3Float * v)) := by
      rw [hk]
      field_simp
      ring
    refine pyRound_eq_of_abs_lt ?_
    rw [key, abs_mul, abs_of_pos (by positivity : (0:ℚ) < 1000 / (sqrt3Float * v))]
    have hb : |syntheticMW a v - k| * (1000 / (sqrt3Float * v)) ≤
        (1/20) * (1000 / (sqrt3Float * v)) := by
      have := div_nonneg (by norm_num : (0:ℚ) ≤ 1000) (le_of_lt (by linarith : (0:ℚ) < sqrt3Float * v))
      exact mul_le_mul_of_nonneg_right herr this
    have hc : (1/20 : ℚ) * (1000 / (sqrt3Float * v)) < 1/2 := by
      have h2 : (1/20 : ℚ) * (1000 / (sqrt3Float * v)) = 50 / (sqrt3Float * v) := by
        ring
      rw [h2, div_lt_iff₀ (by linarith : (0:ℚ) < sqrt3Float * v)]
      linarith
    linarith

/-- Witness for C8 at the spec's scenario-2 values: 800 A at 335 kV. -/
theorem C8_mw_synthesis_round_trip_witness :
    ((0:ℤ) ≤ 800 ∧ (58:ℚ) ≤ 335) ∧
    pyRound (syntheticMW 800 335 * 1000 / (sqrt3Float * 335)) = 800 :=
  ⟨⟨by decide, by decide⟩,
   (C8_mw_synthesis_round_trip {} 800 335 (by decide) (by decide)).2.2⟩

/-- **C9.** In the serialized document every `networkElementId` (on
FlowCnecs, TerminalsActions and ShuntCompensatorPositionActions) and
every element of a Contingency's `networkElementsIds` is exactly one
underscore prepended to the corresponding in-memory value, which the
pure serializers leave untouched. -/
theorem C9_serialized_underscore_prefixed (doc : Crac) :
    ((Crac.dumpModel doc).flowCnecs.map (fun c => c.networkElementId) =
      (exclude3wTransformer doc.flowCnecs).map (fun c => "_" ++ c.networkElementId)) ∧
    ((Crac.dumpModel doc).contingencies.map (fun ct => ct.networkElementsIds) =
      doc.contingencies.map (fun ct => ct.networkElementsIds.map (fun s => "_" ++ s))) ∧
    ((Crac.dumpModel doc).networkActions.map (fun a => a.terminalsConnectionActions) =
      doc.networkActions.map (fun a => a.terminalsConnectionActions.map
        (fun ts => ts.map (fun t => { t with networkElementId := "_" ++ t.networkElementId })))) ∧
    ((Crac.dumpModel doc).networkActions.map (fun a => a.shuntCompensatorPositionActions) =
      doc.networkActions.map (fun a => a.shuntCompensatorPositionActions.map
        (fun ss => ss.map (fun s => { s with networkElementId := "_" ++ s.networkElementId })))) := by
  refine ⟨?_, ?_, ?_, ?_⟩
  · simp [Crac.dumpModel, FlowCnec.dumpModel, underscored, List.map_map,
      Function.comp]
  · simp [Crac.dumpModel, Contingency.dumpModel, underscored, List.map_map,
      Function.comp]
  · simp only [Crac.dumpModel, NetworkAction.dumpModel, List.map_map]
    apply List.map_congr_left
    intro a _
    cases h : a.terminalsConnectionActions with
    | none => simp [NetworkAction.dumpModel, h]
    | some ts =>
      simp [NetworkAction.dumpModel, h, TerminalsAction.dumpModel, underscored,
        List.map_inj_left]
  · simp only [Crac.dumpModel, NetworkAction.dumpModel, List.map_map]
    apply List.map_congr_left
    intro a _
    cases h : a.shuntCompensatorPositionActions with
    | none => simp [NetworkAction.dumpModel, h]
    | some ss =>
      simp [NetworkAction.dumpModel, h, ShuntCompensatorPositionAction.dumpModel,
        underscored, List.map_inj_left]

/-- Witness for C10 on the demo input: the two curative CNECs of
`aeDemo` on contingencies `CO1` and `CO2` are both in the built
document, share an id and differ only in `contingencyId`. -/
theorem C10_duplicate_curative_ids_witness :
    (∀ ct : Contingency, (curativeCnec aeDemo ct).id = aeDemo.mRID ++ "-curative") ∧
    update_limits_cnec inpDemo.limits (curativeCnec aeDemo ctOne) ∈ docDemo.flowCnecs ∧
    update_limits_cnec inpDemo.limits (curativeCnec aeDemo ctTwo) ∈ docDemo.flowCnecs ∧
    (update_limits_cnec inpDemo.limits (curativeCnec aeDemo ctOne)).id =
      (update_limits_cnec inpDemo.limits (curativeCnec aeDemo ctTwo)).id ∧
    (update_limits_cnec inpDemo.limits (curativeCnec aeDemo ctOne)).contingencyId ≠
      (update_limits_cnec inpDemo.limits (curativeCnec aeDemo ctTwo)).contingencyId ∧
    update_limits_cnec inpDemo.limits (curativeCnec aeDemo ctTwo) =
      { update_limits_cnec inpDemo.limits (curativeCnec aeDemo ctOne) with
        contingencyId := some ctTwo.id } :=
  C10_duplicate_curative_ids inpDemo none docDemo aeDemo ctOne ctTwo rfl
    (by decide) (by decide) (by decide) (by decide) (by decide) (by decide)
    (by decide) (by decide)

end RAO
